import Mathlib

/-!
Shallow embedding of the glin LED daemon (a Python program) used to check its
natural-language specification against the code.

Conventions of the embedding:
* Python floats are modelled as exact rationals (`ℚ`); animation render
  buffers, whose values involve `2 ** (time / 3)` with a fractional exponent,
  are modelled over `ℝ` with real exponentiation.
* Python byte strings (ZeroMQ frames) are `List ℕ`, one entry per byte.
* Python dicts keyed by scene id are association lists with dict semantics
  (assignment keeps the position of an existing key, insertion appends).
* `struct.pack` is modelled by `packUInt`; the arguments of the modelled pack
  calls stay inside the packable range for all wire-reachable inputs, except
  that the sequence / scene-id counters are idealised as unbounded `ℕ`.
* An exception that can escape an operation is modelled with `Except String`;
  state mutated before the raise is kept, matching Python's in-place updates.
* Hardware sends are abstracted to a counter of rendered frames; the Nova
  renderer itself is modelled separately at full detail.
-/

namespace Glin

/-- Big-endian encoding of `n` into `w` bytes, as produced by `struct.pack`
with the formats `B` (w = 1), `!I` (w = 4) and `!Q` (w = 8) for in-range `n`. -/
def packUInt (w n : ℕ) : List ℕ :=
  ((List.range w).reverse).map fun i => n / 256 ^ i % 256

/-- Big-endian decoding of a byte frame, as done by `struct.unpack` with
`!I` / `B` / `BBB` (per byte). -/
def unpackUInt (bs : List ℕ) : ℕ :=
  bs.foldl (fun acc b => acc * 256 + b) 0

/-- Python `int()` applied to a numeric value: truncation toward zero
(the floor for nonnegative arguments, the ceiling for negative ones). -/
def pyInt (q : ℚ) : ℤ :=
  if 0 ≤ q then ⌊q⌋ else ⌈q⌉

/-- UTF-8 encoding of one character (as in Python `str.encode("utf-8")`). -/
def utf8Char (c : Char) : List ℕ :=
  let n := c.toNat
  if n < 0x80 then [n]
  else if n < 0x800 then [0xC0 + n / 64, 0x80 + n % 64]
  else if n < 0x10000 then [0xE0 + n / 4096, 0x80 + n / 64 % 64, 0x80 + n % 64]
  else [0xF0 + n / 262144, 0x80 + n / 4096 % 64, 0x80 + n / 64 % 64, 0x80 + n % 64]

/-- UTF-8 encoding of a string (Python `str.encode("utf-8")`). -/
def utf8 (s : String) : List ℕ :=
  s.data.foldr (fun c acc => utf8Char c ++ acc) []

/-- Is `n` a Unicode scalar value?  Python's UTF-8 decoder rejects encoded
surrogates and code points above `0x10FFFF`. -/
def isScalar (n : ℕ) : Bool :=
  n < 0xD800 || (0xE000 ≤ n && n < 0x110000)

/-- Is `b` a UTF-8 continuation byte? -/
def contByte (b : ℕ) : Bool :=
  0x80 ≤ b && b < 0xC0

/-- Strict UTF-8 decoding, character list level.  `none` models Python's
`UnicodeDecodeError` (stray continuation bytes, overlong forms, surrogates,
out-of-range code points, truncated sequences). -/
def utf8DecodeAux : List ℕ → Option (List Char)
  | [] => some []
  | b :: rest =>
    if b < 0x80 then
      (utf8DecodeAux rest).map fun cs => Char.ofNat b :: cs
    else if b < 0xC2 then none
    else if b < 0xE0 then
      match rest with
      | c1 :: rest' =>
        if contByte c1 then
          (utf8DecodeAux rest').map fun cs =>
            Char.ofNat ((b - 0xC0) * 64 + (c1 - 0x80)) :: cs
        else none
      | [] => none
    else if b < 0xF0 then
      match rest with
      | c1 :: c2 :: rest' =>
        if contByte c1 && contByte c2
            && decide (0x800 ≤ (b - 0xE0) * 4096 + (c1 - 0x80) * 64 + (c2 - 0x80))
            && isScalar ((b - 0xE0) * 4096 + (c1 - 0x80) * 64 + (c2 - 0x80)) then
          (utf8DecodeAux rest').map fun cs =>
            Char.ofNat ((b - 0xE0) * 4096 + (c1 - 0x80) * 64 + (c2 - 0x80)) :: cs
        else none
      | _ => none
    else if b < 0xF5 then
      match rest with
      | c1 :: c2 :: c3 :: rest' =>
        if contByte c1 && contByte c2 && contByte c3
            && decide (0x10000 ≤ (b - 0xF0) * 262144 + (c1 - 0x80) * 4096 + (c2 - 0x80) * 64 + (c3 - 0x80))
            && decide ((b - 0xF0) * 262144 + (c1 - 0x80) * 4096 + (c2 - 0x80) * 64 + (c3 - 0x80) < 0x110000) then
          (utf8DecodeAux rest').map fun cs =>
            Char.ofNat ((b - 0xF0) * 262144 + (c1 - 0x80) * 4096 + (c2 - 0x80) * 64 + (c3 - 0x80)) :: cs
        else none
      | _ => none
    else none
termination_by l => l.length
decreasing_by all_goals simp_wf <;> simp_all <;> omega

/-- Strict UTF-8 decoding of a byte frame (Python `bytes.decode("utf-8")`). -/
def utf8Decode? (bs : List ℕ) : Option String :=
  (utf8DecodeAux bs).map fun cs => ⟨cs⟩

/-- Decidable equality for `Except`, needed to evaluate modelled operations
on concrete inputs. -/
instance {ε α : Type} [DecidableEq ε] [DecidableEq α] : DecidableEq (Except ε α) := fun x y =>
  match x, y with
  | .ok a, .ok b =>
    if h : a = b then .isTrue (h ▸ rfl) else .isFalse (fun hc => h (Except.ok.inj hc))
  | .error a, .error b =>
    if h : a = b then .isTrue (h ▸ rfl) else .isFalse (fun hc => h (Except.error.inj hc))
  | .ok _, .error _ => .isFalse (fun hc => Except.noConfusion hc)
  | .error _, .ok _ => .isFalse (fun hc => Except.noConfusion hc)

/-- Python dict lookup (`d[k]`, `k in d`) on an association list. -/
def dictGet {α : Type} (l : List (ℕ × α)) (k : ℕ) : Option α :=
  List.lookup k l

/-- Python dict assignment `d[k] = v`: overwrite keeping the position of an
existing key, otherwise append. -/
def dictSet {α : Type} (l : List (ℕ × α)) (k : ℕ) (v : α) : List (ℕ × α) :=
  if (List.lookup k l).isSome then
    l.map fun p => if p.1 == k then (k, v) else p
  else l ++ [(k, v)]

/-- Python `del d[k]`. -/
def dictDel {α : Type} (l : List (ℕ × α)) (k : ℕ) : List (ℕ × α) :=
  l.filter fun p => p.1 != k

/-- One scene record, after
`Scene = namedtuple('Scene', 'animationId name color velocity config')`. -/
structure Scene where
  animationId : ℕ
  name : String
  color : ℚ × ℚ × ℚ
  velocity : ℚ
  config : String
deriving Repr, DecidableEq

/-- What the orchestrator uses from a registered animation class:
`checkConfig` (scene-creation validation) and the instance's `maxFps`
(`float('inf')` is modelled as `⊤`).  Frame rendering of a live instance is
abstracted at this level and modelled in full for the Nova animation below. -/
structure AnimClass where
  checkConfig : String → Bool
  maxFps : WithTop ℚ

/-- The live animation instance as seen by `GlinApp`: the fields written by
`prepare`, `setColor`, `setVelocity` and `setConfig`. -/
structure AnimInstance where
  ledCount : ℕ
  targetFps : ℚ
  color : ℚ × ℚ × ℚ
  velocity : ℚ
  config : String
deriving Repr, DecidableEq

/-- Payload of one broadcast sent by `GlinAppZmqPublisher` (the byte-level
encoding of a payload is `encodePub` below). -/
inductive PubPayload where
  | brightness (b : ℚ)
  | mainswitch (state : Bool)
  | setactive (sceneId : ℕ)
  | addScene (sceneId animationId : ℕ) (name : String) (color : ℚ × ℚ × ℚ)
      (velocity : ℚ) (config : String)
  | rmScene (sceneId : ℕ)
  | renameScene (sceneId : ℕ) (name : String)
  | reconfigScene (sceneId : ℕ) (config : String)
  | recolorScene (sceneId : ℕ) (color : ℚ × ℚ × ℚ)
  | velocityScene (sceneId : ℕ) (velocity : ℚ)
deriving Repr, DecidableEq

/-- The mutable state of `GlinApp` (`self.state`) together with the
publisher's sequence counter and the ordered log of broadcasts it sent.
`numLed` and `hwMaxFps` are the constructor parameters; `rendered` counts
the frames produced by `_doNextFrame`. -/
structure AppState where
  numLed : ℕ
  hwMaxFps : WithTop ℚ
  animationClasses : List AnimClass
  activeSceneId : Option ℕ
  activeAnimation : Option AnimInstance
  scenes : List (ℕ × Scene)
  brightness : ℚ
  sceneIdCtr : ℕ
  mainswitch : Bool
  targetFps : ℚ
  seqNr : ℕ
  published : List (ℕ × PubPayload)
  rendered : ℕ

/-- The state built by `GlinApp.__init__` once the bootstrap has registered
`classes` through `registerAnimation`. -/
def GlinApp.initState (numLed : ℕ) (hwMaxFps : WithTop ℚ) (classes : List AnimClass) :
    AppState where
  numLed := numLed
  hwMaxFps := hwMaxFps
  animationClasses := classes
  activeSceneId := none
  activeAnimation := none
  scenes := []
  brightness := 1
  sceneIdCtr := 0
  mainswitch := true
  targetFps := 0
  seqNr := 0
  published := []
  rendered := 0

/-- Common body of every `GlinAppZmqPublisher.publishX` method: pre-increment
the shared counter, send (log) the broadcast, return the sequence number. -/
def publish (s : AppState) (p : PubPayload) : AppState × ℕ :=
  ({ s with seqNr := s.seqNr + 1, published := s.published ++ [(s.seqNr + 1, p)] },
   s.seqNr + 1)

/-- The `(success, seqNr, comment)` triple each orchestrator operation returns. -/
abbrev OpResult := Bool × ℕ × String

/-- `GlinApp._doNextFrame`: render and send a frame iff an animation is
active (frame contents abstracted to the `rendered` counter). -/
def GlinApp.doNextFrame (s : AppState) : AppState :=
  if s.activeAnimation.isSome then { s with rendered := s.rendered + 1 } else s

/-- `GlinApp._deactivateScene`: stop the scheduler, `finish()` and drop the
animation instance if one is running. -/
def GlinApp.deactivateScene (s : AppState) : AppState :=
  if s.activeAnimation.isSome then { s with activeAnimation := none } else s

/-- `GlinApp._activateScene`.  Looking up `animationClasses[animationId]`
raises `IndexError` when the id is out of range (never reached from states
built by the orchestrator itself, which validates the id at scene creation). -/
def GlinApp.activateScene (s : AppState) : AppState × Except String Unit :=
  match s.activeSceneId.bind (fun sid => dictGet s.scenes sid) with
  | some scene =>
    match s.animationClasses[scene.animationId]? with
    | none => (s, .error "IndexError: list index out of range")
    | some cls =>
      let tf0 : ℚ := (min (60 : WithTop ℚ) (min cls.maxFps s.hwMaxFps)).untop' 0
      let tf : ℚ := if tf0 < 0 then 0 else tf0
      let inst : AnimInstance :=
        { ledCount := s.numLed, targetFps := tf, color := scene.color,
          velocity := scene.velocity, config := scene.config }
      (GlinApp.doNextFrame { s with targetFps := tf, activeAnimation := some inst }, .ok ())
  | none => ({ s with activeAnimation := none }, .ok ())

/-- `GlinApp.setBrightness`: clamp to `[0, 1]`, store, resend the cached
frame if the animation is slow (`_repeatLastFrame`, which renders nothing
and mutates no modelled state), broadcast. -/
def GlinApp.setBrightness (s : AppState) (brightness : ℚ) : AppState × OpResult :=
  let b := min 1 (max brightness 0)
  let s1 := { s with brightness := b }
  let (s2, n) := publish s1 (.brightness b)
  (s2, (true, n, "OK"))

/-- `GlinApp.setActiveScene`. -/
def GlinApp.setActiveScene (s : AppState) (sceneId : ℕ) : AppState × Except String OpResult :=
  if s.activeSceneId ≠ some sceneId then
    let s1 := GlinApp.deactivateScene s
    let (s2, n) := publish s1 (.setactive sceneId)
    let s3 := { s2 with activeSceneId := some sceneId }
    if s3.mainswitch = true then
      match GlinApp.activateScene s3 with
      | (s4, .ok _) => (s4, .ok (true, n, "OK"))
      | (s4, .error e) => (s4, .error e)
    else (s3, .ok (true, n, "OK"))
  else (s, .ok (false, 0, "This already is the activated scene."))

/-- `GlinApp.registerScene`.  The Python guard `animationId < 0` is vacuous
here because wire animation ids are unsigned. -/
def GlinApp.registerScene (s : AppState) (animationId : ℕ) (sceneName : String)
    (color : ℚ × ℚ × ℚ) (velocity : ℚ) (config : String) :
    AppState × Except String OpResult :=
  if h : animationId < s.animationClasses.length then
    if s.animationClasses[animationId].checkConfig config = false then
      (s, .ok (false, 0, "Requested to register scene with invalid configuration."))
    else
      let ctr := s.sceneIdCtr + 1
      let s1 := { s with sceneIdCtr := ctr,
                         scenes := dictSet s.scenes ctr
                           ⟨animationId, sceneName, color, velocity, config⟩ }
      let (s2, n) := publish s1 (.addScene ctr animationId sceneName color velocity config)
      if s2.activeSceneId = none then
        match GlinApp.setActiveScene s2 ctr with
        | (s3, .ok _) => (s3, .ok (true, n, "OK"))
        | (s3, .error e) => (s3, .error e)
      else (s2, .ok (true, n, "OK"))
  else
    (s, .ok (false, 0, "Requested to register scene with invalid Animation ID. Out of range."))

/-- `GlinApp.removeScene`. -/
def GlinApp.removeScene (s : AppState) (sceneId : ℕ) : AppState × OpResult :=
  if s.activeSceneId = some sceneId then
    (s, (false, 0, "Requested to delete scene " ++ toString sceneId
          ++ ", which is currently active. Cannot delete active scene."))
  else if (dictGet s.scenes sceneId).isNone then
    (s, (false, 0, "Requested to delete scene " ++ toString sceneId
          ++ ", which does not exist"))
  else
    let s1 := { s with scenes := dictDel s.scenes sceneId }
    let (s2, n) := publish s1 (.rmScene sceneId)
    (s2, (true, n, "OK"))

/-- `GlinApp.renameScene`. -/
def GlinApp.renameScene (s : AppState) (sceneId : ℕ) (name : String) : AppState × OpResult :=
  match dictGet s.scenes sceneId with
  | none => (s, (false, 0, "Requested to rename scene " ++ toString sceneId
                  ++ ", which does not exist"))
  | some sc =>
    let s1 := { s with scenes := dictSet s.scenes sceneId { sc with name := name } }
    let (s2, n) := publish s1 (.renameScene sceneId name)
    (s2, (true, n, "OK"))

/-- `GlinApp.reconfigScene`. -/
def GlinApp.reconfigScene (s : AppState) (sceneId : ℕ) (config : String) : AppState × OpResult :=
  match dictGet s.scenes sceneId with
  | none => (s, (false, 0, "Requested to reconfigure scene " ++ toString sceneId
                  ++ ", which does not exist"))
  | some sc =>
    let s1 := { s with scenes := dictSet s.scenes sceneId { sc with config := config } }
    let (s2, n) := publish s1 (.reconfigScene sceneId config)
    (s2, (true, n, "OK"))

/-- `GlinApp.recolorScene`.  When the recolored scene is the active one the
code dereferences `self.state.activeAnimation` without a `None` check; with
the main switch off that reference is `None` and `.setColor` raises
`AttributeError` — after the scene map was already updated and the broadcast
already sent. -/
def GlinApp.recolorScene (s : AppState) (sceneId : ℕ) (color : ℚ × ℚ × ℚ) :
    AppState × Except String OpResult :=
  match dictGet s.scenes sceneId with
  | none => (s, .ok (false, 0, "Requested to recolor scene " ++ toString sceneId
                      ++ ", which does not exist"))
  | some sc =>
    let s1 := { s with scenes := dictSet s.scenes sceneId { sc with color := color } }
    let (s2, n) := publish s1 (.recolorScene sceneId color)
    if s2.activeSceneId = some sceneId then
      match s2.activeAnimation with
      | none => (s2, .error "AttributeError")
      | some inst =>
        (GlinApp.doNextFrame { s2 with activeAnimation := some { inst with color := color } },
         .ok (true, n, "OK"))
    else (s2, .ok (true, n, "OK"))

/-- `GlinApp.velocityScene`; shares the `None` dereference hazard of
`recolorScene`. -/
def GlinApp.velocityScene (s : AppState) (sceneId : ℕ) (velocity : ℚ) :
    AppState × Except String OpResult :=
  match dictGet s.scenes sceneId with
  | none => (s, .ok (false, 0, "Requested to set velocity on scene " ++ toString sceneId
                      ++ ", which does not exist"))
  | some sc =>
    let s1 := { s with scenes := dictSet s.scenes sceneId { sc with velocity := velocity } }
    let (s2, n) := publish s1 (.velocityScene sceneId velocity)
    if s2.activeSceneId = some sceneId then
      match s2.activeAnimation with
      | none => (s2, .error "AttributeError")
      | some inst =>
        (GlinApp.doNextFrame { s2 with activeAnimation := some { inst with velocity := velocity } },
         .ok (true, n, "OK"))
    else (s2, .ok (true, n, "OK"))

/-- `GlinApp.setMainSwitch` (`hwComm.switchOn` / `switchOff` have no
modelled effect beyond deactivation). -/
def GlinApp.setMainSwitch (s : AppState) (state : Bool) : AppState × Except String OpResult :=
  if s.mainswitch = state then
    (s, .ok (false, 0, "MainSwitch unchanged, already is "
              ++ (if state then "On" else "Off")))
  else
    let s1 := { s with mainswitch := state }
    let (s2, n) := publish s1 (.mainswitch state)
    if state = true then
      match GlinApp.activateScene s2 with
      | (s3, .ok _) => (s3, .ok (true, n, "OK"))
      | (s3, .error e) => (s3, .error e)
    else
      (GlinApp.deactivateScene s2, .ok (true, n, "OK"))

/-- `GlinApp.toggleMainSwitch`. -/
def GlinApp.toggleMainSwitch (s : AppState) : AppState × Except String OpResult :=
  GlinApp.setMainSwitch s (!s.mainswitch)

/-- Return value of a `_handle_collect_*` handler.  The wrong-frame-count
branch of `_handle_collect_brightness` returns the 2-tuple `(False, 0, )`
instead of the usual 3-tuple, hence the second constructor. -/
inductive HandlerRet where
  | triple (success : Bool) (seqNr : ℕ) (comment : String)
  | pair (success : Bool) (seqNr : ℕ)
deriving Repr, DecidableEq

/-- Wrap the result of an orchestrator operation that cannot raise. -/
def liftPure (r : AppState × OpResult) : AppState × Except String HandlerRet :=
  (r.1, .ok (.triple r.2.1 r.2.2.1 r.2.2.2))

/-- Wrap the result of an orchestrator operation that may raise (the
collector's `try` block logs and re-raises, so the exception passes through). -/
def liftExc (r : AppState × Except String OpResult) : AppState × Except String HandlerRet :=
  (r.1, r.2.map fun t => .triple t.1 t.2.1 t.2.2)

/-- `GlinAppZmqCollector._parse_color`: three unsigned bytes to channel
floats `byte/255`. -/
def GlinAppZmqCollector.parseColor (bs : List ℕ) : ℚ × ℚ × ℚ :=
  ((bs.getD 0 0 : ℚ) / 255, (bs.getD 1 0 : ℚ) / 255, (bs.getD 2 0 : ℚ) / 255)

/-- `GlinAppZmqCollector._handle_collect_brightness`.  Note the first
rejection branch: the source computes `err_msg` but returns `(False, 0, )`. -/
def GlinAppZmqCollector.handleBrightness (msg : List (List ℕ)) (s : AppState) :
    AppState × Except String HandlerRet :=
  if msg.length ≠ 2 then
    (s, .ok (.pair false 0))
  else if (msg.getD 1 []).length ≠ 1 then
    (s, .ok (.triple false 0 "Invalid brightness message. Parameter must be exactly 1 Byte"))
  else
    liftPure (GlinApp.setBrightness s (((msg.getD 1 []).getD 0 0 : ℚ) / 255))

/-- `GlinAppZmqCollector._handle_collect_mainswitch_state`. -/
def GlinAppZmqCollector.handleMainswitchState (msg : List (List ℕ)) (s : AppState) :
    AppState × Except String HandlerRet :=
  if msg.length ≠ 2 then
    (s, .ok (.triple false 0 "Invalid mainswitch.state message. Expected 2 frames"))
  else if (msg.getD 1 []).length ≠ 1 then
    (s, .ok (.triple false 0 "Invalid mainswitch.state message. Parameter must be exactly 1 Byte"))
  else if msg.getD 1 [] = [0] then
    liftExc (GlinApp.setMainSwitch s false)
  else
    liftExc (GlinApp.setMainSwitch s true)

/-- `GlinAppZmqCollector._handle_collect_mainswitch_toggle`. -/
def GlinAppZmqCollector.handleMainswitchToggle (msg : List (List ℕ)) (s : AppState) :
    AppState × Except String HandlerRet :=
  if msg.length ≠ 1 then
    (s, .ok (.triple false 0 "Invalid mainswitch.toggle message. Expected 1 frame"))
  else
    liftExc (GlinApp.toggleMainSwitch s)

/-- `GlinAppZmqCollector._handle_collect_scene_add`.  The byte-length text
for frame 4 really says "Color" in the source. -/
def GlinAppZmqCollector.handleSceneAdd (msg : List (List ℕ)) (s : AppState) :
    AppState × Except String HandlerRet :=
  if msg.length ≠ 5 ∧ msg.length ≠ 6 then
    (s, .ok (.triple false 0 ("Invalid scene.add message. Expected 5 or 6 frames, got "
              ++ toString msg.length)))
  else if (msg.getD 1 []).length ≠ 4 then
    (s, .ok (.triple false 0 "Invalid scene.add message. AnimationId should be exactly 4 Bytes"))
  else if (msg.getD 3 []).length ≠ 3 then
    (s, .ok (.triple false 0 "Invalid scene.add message. Color should be exactly 3 Bytes"))
  else if (msg.getD 4 []).length ≠ 4 then
    (s, .ok (.triple false 0 "Invalid scene.add message. Color should be exactly 4 Bytes"))
  else
    let animId := unpackUInt (msg.getD 1 [])
    let color := GlinAppZmqCollector.parseColor (msg.getD 3 [])
    let velocity := unpackUInt (msg.getD 4 [])
    match (if msg.length = 6 then utf8Decode? (msg.getD 5 []) else some ""),
        utf8Decode? (msg.getD 2 []) with
    | some config, some name =>
      liftExc (GlinApp.registerScene s animId name color ((velocity : ℚ) / 1000) config)
    | _, _ =>
      (s, .ok (.triple false 0 "Invalid scene.add message. Contained invalid Unicode Characters."))

/-- `GlinAppZmqCollector._handle_collect_scene_recolor`. -/
def GlinAppZmqCollector.handleSceneRecolor (msg : List (List ℕ)) (s : AppState) :
    AppState × Except String HandlerRet :=
  if msg.length ≠ 3 then
    (s, .ok (.triple false 0 "Invalid scene.color message. Expected 3 frames"))
  else if (msg.getD 1 []).length ≠ 4 then
    (s, .ok (.triple false 0 "Invalid scene.color message. SceneId should be exactly 4 Bytes"))
  else if (msg.getD 2 []).length ≠ 3 then
    (s, .ok (.triple false 0 "Invalid scene.color message. Color should be exactly 3 Bytes"))
  else
    liftExc (GlinApp.recolorScene s (unpackUInt (msg.getD 1 []))
      (GlinAppZmqCollector.parseColor (msg.getD 2 [])))

/-- `GlinAppZmqCollector._handle_collect_scene_velocity`. -/
def GlinAppZmqCollector.handleSceneVelocity (msg : List (List ℕ)) (s : AppState) :
    AppState × Except String HandlerRet :=
  if msg.length ≠ 3 then
    (s, .ok (.triple false 0 "Invalid scene.velocity message. Expected 3 frames"))
  else if (msg.getD 1 []).length ≠ 4 then
    (s, .ok (.triple false 0 "Invalid scene.velocity message. SceneId should be exactly 4 Bytes"))
  else if (msg.getD 2 []).length ≠ 4 then
    (s, .ok (.triple false 0 "Invalid scene.velocity message. Velocity should be exactly 4 Bytes"))
  else
    liftExc (GlinApp.velocityScene s (unpackUInt (msg.getD 1 []))
      ((unpackUInt (msg.getD 2 []) : ℚ) / 1000))

/-- `GlinAppZmqCollector._handle_collect_scene_reconfig`. -/
def GlinAppZmqCollector.handleSceneReconfig (msg : List (List ℕ)) (s : AppState) :
    AppState × Except String HandlerRet :=
  if msg.length ≠ 3 then
    (s, .ok (.triple false 0 "Invalid scene.config message. Expected 3 frames"))
  else if (msg.getD 1 []).length ≠ 4 then
    (s, .ok (.triple false 0 "Invalid scene.config message. SceneId should be exactly 4 Bytes"))
  else
    match utf8Decode? (msg.getD 2 []) with
    | some config => liftPure (GlinApp.reconfigScene s (unpackUInt (msg.getD 1 [])) config)
    | none =>
      (s, .ok (.triple false 0
        "Invalid scene.config message. Configuration contained invalid Unicode Characters."))

/-- `GlinAppZmqCollector._handle_collect_scene_rename`. -/
def GlinAppZmqCollector.handleSceneRename (msg : List (List ℕ)) (s : AppState) :
    AppState × Except String HandlerRet :=
  if msg.length ≠ 3 then
    (s, .ok (.triple false 0 "Invalid scene.name message. Expected 3 frames"))
  else if (msg.getD 1 []).length ≠ 4 then
    (s, .ok (.triple false 0 "Invalid scene.name message. SceneId should be exactly 4 Bytes"))
  else
    match utf8Decode? (msg.getD 2 []) with
    | some name => liftPure (GlinApp.renameScene s (unpackUInt (msg.getD 1 [])) name)
    | none =>
      (s, .ok (.triple false 0
        "Invalid scene.name message. Name contained invalid Unicode Characters."))

/-- `GlinAppZmqCollector._handle_collect_scene_rm`. -/
def GlinAppZmqCollector.handleSceneRm (msg : List (List ℕ)) (s : AppState) :
    AppState × Except String HandlerRet :=
  if msg.length ≠ 2 then
    (s, .ok (.triple false 0 "Invalid scene.rm message. Expected 2 frames"))
  else if (msg.getD 1 []).length ≠ 4 then
    (s, .ok (.triple false 0 "Invalid scene.rm message. SceneId should be exactly 4 Bytes"))
  else
    liftPure (GlinApp.removeScene s (unpackUInt (msg.getD 1 [])))

/-- `GlinAppZmqCollector._handle_collect_scene_setactive`. -/
def GlinAppZmqCollector.handleSceneSetactive (msg : List (List ℕ)) (s : AppState) :
    AppState × Except String HandlerRet :=
  if msg.length ≠ 2 then
    (s, .ok (.triple false 0 ("Invalid scene.setactive message. Expected 2 frames, got "
              ++ toString msg.length)))
  else if (msg.getD 1 []).length ≠ 4 then
    (s, .ok (.triple false 0 "Invalid scene.setactive message. SceneId should be exactly 4 Bytes"))
  else
    liftExc (GlinApp.setActiveScene s (unpackUInt (msg.getD 1 [])))

/-- `GlinAppZmqCollector._handle_collect`: dispatch on the command-name
frame.  The surrounding `try` logs and re-raises unexpected exceptions, so
they pass through unchanged. -/
def GlinAppZmqCollector.handleCollectInner (msg : List (List ℕ)) (s : AppState) :
    AppState × Except String HandlerRet :=
  if msg.length < 1 then
    (s, .ok (.triple false 0 "Got empty message. Ignoring."))
  else
    let cmd := msg.getD 0 []
    if cmd = utf8 "brightness" then GlinAppZmqCollector.handleBrightness msg s
    else if cmd = utf8 "mainswitch.state" then GlinAppZmqCollector.handleMainswitchState msg s
    else if cmd = utf8 "mainswitch.toggle" then GlinAppZmqCollector.handleMainswitchToggle msg s
    else if cmd = utf8 "scene.add" then GlinAppZmqCollector.handleSceneAdd msg s
    else if cmd = utf8 "scene.config" then GlinAppZmqCollector.handleSceneReconfig msg s
    else if cmd = utf8 "scene.color" then GlinAppZmqCollector.handleSceneRecolor msg s
    else if cmd = utf8 "scene.velocity" then GlinAppZmqCollector.handleSceneVelocity msg s
    else if cmd = utf8 "scene.name" then GlinAppZmqCollector.handleSceneRename msg s
    else if cmd = utf8 "scene.rm" then GlinAppZmqCollector.handleSceneRm msg s
    else if cmd = utf8 "scene.setactive" then GlinAppZmqCollector.handleSceneSetactive msg s
    else (s, .ok (.triple false 0 "Invalid Command"))

/-- `GlinAppZmqCollector.handle_collect`: run the handler, unpack
`(success, seqNr, comment)` and send the three-frame reply
`[flag byte, pack("!I", seqNr), comment.encode("utf-8")]`.  Unpacking the
2-tuple raises `ValueError`, and a handler exception passes through, so in
those cases no reply is sent. -/
def GlinAppZmqCollector.handleCollect (msg : List (List ℕ)) (s : AppState) :
    AppState × Except String (List (List ℕ)) :=
  match GlinAppZmqCollector.handleCollectInner msg s with
  | (s', .ok (.triple ok n c)) => (s', .ok [[if ok then 1 else 0], packUInt 4 n, utf8 c])
  | (s', .ok (.pair _ _)) => (s', .error "ValueError: not enough values to unpack (expected 3, got 2)")
  | (s', .error e) => (s', .error e)

/-- A wire command as dispatched by the collector after frame validation;
argument domains are what `unpack` can produce from the checked frames
(single bytes for colors and brightness, `!I` words for ids and velocity,
the latter idealised as `ℕ`). -/
inductive Command where
  | brightness (byte : Fin 256)
  | mainswitchState (state : Bool)
  | mainswitchToggle
  | sceneAdd (animationId : ℕ) (name : String) (color : Fin 256 × Fin 256 × Fin 256)
      (velocity : ℕ) (config : String)
  | sceneConfig (sceneId : ℕ) (config : String)
  | sceneColor (sceneId : ℕ) (color : Fin 256 × Fin 256 × Fin 256)
  | sceneVelocity (sceneId : ℕ) (velocity : ℕ)
  | sceneName (sceneId : ℕ) (name : String)
  | sceneRm (sceneId : ℕ)
  | sceneSetactive (sceneId : ℕ)

/-- Decode a color byte triple the way `_parse_color` does. -/
def colorOfBytes (c : Fin 256 × Fin 256 × Fin 256) : ℚ × ℚ × ℚ :=
  (((c.1 : ℕ) : ℚ) / 255, ((c.2.1 : ℕ) : ℚ) / 255, ((c.2.2 : ℕ) : ℚ) / 255)

/-- One collector-dispatched orchestrator operation on decoded arguments. -/
def step (s : AppState) : Command → AppState × Except String OpResult
  | .brightness b => let r := GlinApp.setBrightness s (((b : ℕ) : ℚ) / 255); (r.1, .ok r.2)
  | .mainswitchState st => GlinApp.setMainSwitch s st
  | .mainswitchToggle => GlinApp.toggleMainSwitch s
  | .sceneAdd a nm c v cfg => GlinApp.registerScene s a nm (colorOfBytes c) ((v : ℚ) / 1000) cfg
  | .sceneConfig sid cfg => let r := GlinApp.reconfigScene s sid cfg; (r.1, .ok r.2)
  | .sceneColor sid c => GlinApp.recolorScene s sid (colorOfBytes c)
  | .sceneVelocity sid v => GlinApp.velocityScene s sid ((v : ℚ) / 1000)
  | .sceneName sid nm => let r := GlinApp.renameScene s sid nm; (r.1, .ok r.2)
  | .sceneRm sid => let r := GlinApp.removeScene s sid; (r.1, .ok r.2)
  | .sceneSetactive sid => GlinApp.setActiveScene s sid

/-- Apply a command sequence (a raising command keeps the state it mutated
in place before the raise, matching Python). -/
def run (s : AppState) (cmds : List Command) : AppState :=
  cmds.foldl (fun s c => (step s c).1) s

/-- `MessageBuilder.scene_add` from the wire codec: command frame, 8-byte
sequence number, `!I` scene and animation ids, UTF-8 name,
`pack("BBB", int(c*255), …)`, `!I` of `int(velocity*1000)`, UTF-8 config.
`Int.toNat` stands in for the in-range values `pack` accepts. -/
def MessageBuilder.scene_add (sequence_number scene_id animation_id : ℕ) (name : String)
    (color : ℚ × ℚ × ℚ) (velocity : ℚ) (config : String) : List (List ℕ) :=
  [utf8 "scene.add", packUInt 8 sequence_number, packUInt 4 scene_id, packUInt 4 animation_id,
   utf8 name,
   [(pyInt (color.1 * 255)).toNat, (pyInt (color.2.1 * 255)).toNat, (pyInt (color.2.2 * 255)).toNat],
   packUInt 4 (pyInt (velocity * 1000)).toNat, utf8 config]

/-- `MessageBuilder.scene_color` from the wire codec. -/
def MessageBuilder.scene_color (sequence_number scene_id : ℕ) (color : ℚ × ℚ × ℚ) :
    List (List ℕ) :=
  [utf8 "scene.color", packUInt 8 sequence_number, packUInt 4 scene_id,
   [(pyInt (color.1 * 255)).toNat, (pyInt (color.2.1 * 255)).toNat, (pyInt (color.2.2 * 255)).toNat]]

/-- `MessageBuilder.scene_velocity` from the wire codec. -/
def MessageBuilder.scene_velocity (sequence_number scene_id : ℕ) (velocity : ℚ) :
    List (List ℕ) :=
  [utf8 "scene.velocity", packUInt 8 sequence_number, packUInt 4 scene_id,
   packUInt 4 (pyInt (velocity * 1000)).toNat]

/-- Byte-level frames of the broadcast `GlinAppZmqPublisher` sends for each
payload (`publishBrightness` … `publishVelocityScene`). -/
def encodePub (seq : ℕ) : PubPayload → List (List ℕ)
  | .brightness b => [utf8 "brightness", packUInt 8 seq, [(pyInt (b * 255)).toNat]]
  | .mainswitch st => [utf8 "mainswitch.state", packUInt 8 seq, [if st then 1 else 0]]
  | .setactive sid => [utf8 "scene.setactive", packUInt 8 seq, packUInt 4 sid]
  | .addScene sid aid name c v cfg =>
    [utf8 "scene.add", packUInt 8 seq, packUInt 4 sid, packUInt 4 aid, utf8 name,
     [(pyInt (c.1 * 255)).toNat, (pyInt (c.2.1 * 255)).toNat, (pyInt (c.2.2 * 255)).toNat],
     packUInt 4 (pyInt (v * 1000)).toNat, utf8 cfg]
  | .rmScene sid => [utf8 "scene.rm", packUInt 8 seq, packUInt 4 sid]
  | .renameScene sid name => [utf8 "scene.name", packUInt 8 seq, packUInt 4 sid, utf8 name]
  | .reconfigScene sid cfg => [utf8 "scene.config", packUInt 8 seq, packUInt 4 sid, utf8 cfg]
  | .recolorScene sid c =>
    [utf8 "scene.color", packUInt 8 seq, packUInt 4 sid,
     [(pyInt (c.1 * 255)).toNat, (pyInt (c.2.1 * 255)).toNat, (pyInt (c.2.2 * 255)).toNat]]
  | .velocityScene sid v =>
    [utf8 "scene.velocity", packUInt 8 seq, packUInt 4 sid, packUInt 4 (pyInt (v * 1000)).toNat]

/-- Modelled from the spec: Python's `round()` (round half to even), which
the spec's fixed-point convention says the encoders apply to `channel*255`
and `velocity*1000`.  The source applies `int()` (truncation) instead. -/
def specRound (q : ℚ) : ℤ :=
  if q - (⌊q⌋ : ℚ) < 1/2 then ⌊q⌋
  else if 1/2 < q - (⌊q⌋ : ℚ) then ⌊q⌋ + 1
  else if ⌊q⌋ % 2 = 0 then ⌊q⌋ else ⌊q⌋ + 1

/-- Channel-wise addition on an RGB value (`data[pos] += v`). -/
noncomputable def addRGB (a b : ℝ × ℝ × ℝ) : ℝ × ℝ × ℝ :=
  (a.1 + b.1, a.2.1 + b.2.1, a.2.2 + b.2.2)

/-- Channel-wise division of an RGB value by a scalar (`color / d`). -/
noncomputable def divRGB (a : ℝ × ℝ × ℝ) (d : ℝ) : ℝ × ℝ × ℝ :=
  (a.1 / d, a.2.1 / d, a.2.2 / d)

/-- Add `v` into the buffer at position `pos`. -/
noncomputable def bufAdd (data : ℤ → ℝ × ℝ × ℝ) (pos : ℤ) (v : ℝ × ℝ × ℝ) : ℤ → ℝ × ℝ × ℝ :=
  fun p => if p = pos then addRGB (data p) v else data p

/-- `np.arange(a, b)`: the integers `a, a+1, …, b-1`. -/
def arangeUp (a b : ℤ) : List ℤ :=
  (List.range (b - a).toNat).map fun i => a + (i : ℤ)

/-- `np.arange(a, b, -1)`: the integers `a, a-1, …, b+1`. -/
def arangeDown (a b : ℤ) : List ℤ :=
  (List.range (a - b).toNat).map fun i => a - (i : ℤ)

/-- A single Nova particle.  `NovaAnimation.Nova.__init__` draws `color`,
`center` and `velocity` randomly; randomness is externalised, so they are
plain fields here (creation gives `center ∈ [0, led_count)`,
`velocity ∈ {1, 2, 3}`, channels in `{0, 0.5, 1.0}`, both times `0`). -/
structure Nova where
  led_count : ℤ
  color : ℝ × ℝ × ℝ
  center : ℤ
  external_time : ℚ
  time : ℤ
  velocity : ℤ

/-- `Nova.tick(stepsize)`: advance the external clock and recompute the
integer age `int(external_time / velocity)`. -/
def Nova.tick (n : Nova) (stepsize : ℚ) : Nova :=
  { n with external_time := n.external_time + stepsize,
           time := pyInt ((n.external_time + stepsize) / (n.velocity : ℚ)) }

/-- `Nova.write_data(data)`: the core flash (while `time < 24`) plus the two
decaying wings (while `time > 0`).  The float `2 ** (self.time / 3)` has a
fractional exponent and is modelled with real exponentiation, hence the
real-valued buffer. -/
noncomputable def Nova.write_data (n : Nova) (data : ℤ → ℝ × ℝ × ℝ) : ℤ → ℝ × ℝ × ℝ :=
  let d1 := if n.time < 24 then
      bufAdd data n.center (divRGB n.color ((2 : ℝ) ^ ((n.time : ℝ) / 3)))
    else data
  if 0 < n.time then
    let d2 := if -10 ≤ n.center - n.time then
        ((arangeUp (n.center - n.time)
            (if n.center - n.time + 10 < n.center then n.center - n.time + 10
             else n.center)).enum).foldl
          (fun d ep => if 0 ≤ ep.2 then bufAdd d ep.2 (divRGB n.color ((2 : ℝ) ^ ep.1)) else d)
          d1
      else d1
    if n.center + n.time < n.led_count + 10 then
      ((arangeDown (n.center + n.time)
          (if n.center < n.center + n.time - 10 then n.center + n.time - 10
           else n.center)).enum).foldl
        (fun d ep => if ep.2 < n.led_count then bufAdd d ep.2 (divRGB n.color ((2 : ℝ) ^ ep.1)) else d)
        d2
    else d2
  else d1

/-- `Nova.dead()`: both wings have fully left the strip. -/
def Nova.dead (n : Nova) : Bool :=
  decide (n.center - n.time + 10 < 0) && decide (n.led_count + 10 ≤ n.center + n.time)

/-- The `NovaAnimation` instance state: the base-class fields plus the live
particle list (`prepare` fills `novas` with three randomly drawn particles). -/
structure NovaAnimation where
  led_count : ℤ
  target_fps : ℚ
  config : String
  color : ℝ × ℝ × ℝ
  velocity : ℚ
  novas : List Nova

/-- The per-frame loop of `render_next_frame`: tick every Nova by the scene
velocity and let it add its light into the shared accumulation buffer
(which starts zeroed). -/
noncomputable def NovaAnimation.accumulate (velocity : ℚ) (novas : List Nova) :
    List Nova × (ℤ → ℝ × ℝ × ℝ) :=
  novas.foldl
    (fun acc n =>
      let n' := n.tick velocity
      (acc.1 ++ [n'], n'.write_data acc.2))
    ([], fun _ => (0, 0, 0))

/-- The removal loop `for nova in self.novas: if nova.dead(): self.novas.remove(nova)`:
removing the current element while iterating makes Python's internal index
skip the element that slides into its place, and `remove` matches on object
identity, so the loop is this index-faithful recursion (a dead Nova directly
following a removed one survives the pass). -/
def removeDead : List Nova → List Nova
  | [] => []
  | n :: rest =>
    if n.dead then
      match rest with
      | [] => []
      | m :: rest' => m :: removeDead rest'
    else n :: removeDead rest

/-- `np.clip(x, 0, 1)` on one channel. -/
noncomputable def clip1 (x : ℝ) : ℝ := min 1 (max 0 x)

/-- `np.clip(·, 0, 1)` on an RGB value. -/
noncomputable def clip3 (v : ℝ × ℝ × ℝ) : ℝ × ℝ × ℝ := (clip1 v.1, clip1 v.2.1, clip1 v.2.2)

/-- `NovaAnimation.render_next_frame(buf)`.  The spawn draw
`np.random.rand() < 1/60*self.velocity` is externalised as `spawn`
(`some nova` iff the draw fired, carrying the freshly drawn Nova).  The
caller's buffer is fully overwritten with `np.clip(data, 0, 1)`, so its
previous contents never show through. -/
noncomputable def NovaAnimation.render_next_frame (a : NovaAnimation) (spawn : Option Nova)
    (_buf : ℤ → ℝ × ℝ × ℝ) : NovaAnimation × (ℤ → ℝ × ℝ × ℝ) :=
  let res := NovaAnimation.accumulate a.velocity (a.novas ++ spawn.toList)
  ({ a with novas := removeDead res.1 }, fun p => clip3 (res.2 p))

/-- A decoded Python config value; just enough structure to state what
`ConfigSchema.deserialize` stores in its result dict. -/
inductive PyVal where
  | str (s : String)
  | int (i : ℤ)
  | bool (b : Bool)
  | deprecatedValue
deriving Repr, DecidableEq

/-- A config value type as `ConfigSchema` sees it: the `Deprecated` class
(tested with `isinstance`) or any other `ConfigValue` subclass, abstracted
by its `deserialize` method (a raised `ValueError e` becomes `.error e`;
none of the concrete value types raises `KeyError`). -/
inductive CfgValueType where
  | deprecated
  | plain (f : String → Except String PyVal)

/-- One dispatch of `self[key].deserialize(value)`; `Deprecated.deserialize`
returns the `DeprecatedValue()` sentinel and never fails. -/
def CfgValueType.deserialize : CfgValueType → String → Except String PyVal
  | .deprecated, _ => .ok .deprecatedValue
  | .plain f, v => f v

/-- A Python dict keyed by strings, as a partial map (the insertion order of
`result` / `errors` is irrelevant to every claim). -/
def SDict (α : Type) : Type := String → Option α

/-- The empty dict. -/
def SDict.empty {α : Type} : SDict α := fun _ => none

/-- Python `d[k] = v`. -/
def SDict.set {α : Type} (d : SDict α) (k : String) (v : α) : SDict α :=
  fun k' => if k' = k then some v else d k'

/-- Python `d.pop(k, None)`. -/
def SDict.pop {α : Type} (d : SDict α) (k : String) : SDict α :=
  fun k' => if k' = k then none else d k'

/-- The body of the first loop of `ConfigSchema.deserialize`: process one
supplied `key, value` pair.  `self[key]` raising `KeyError` is the
schema-lookup miss; a `ValueError` from the value type stores `None` in the
result and the message in the errors. -/
def ConfigSchema.deserializeStep1 (schema : List (String × CfgValueType))
    (acc : SDict (Option PyVal) × SDict String) (kv : String × String) :
    SDict (Option PyVal) × SDict String :=
  match List.lookup kv.1 schema with
  | none => (acc.1, acc.2.set kv.1 "unknown config key.")
  | some vt =>
    match vt.deserialize kv.2 with
    | .ok v => (acc.1.set kv.1 (some v), acc.2)
    | .error e => (acc.1.set kv.1 none, acc.2.set kv.1 e)

/-- The body of the second loop of `ConfigSchema.deserialize`: walk the
declared keys, drop `Deprecated` entries from the result, and require every
remaining key that was neither supplied nor already erroring. -/
def ConfigSchema.deserializeStep2 (acc : SDict (Option PyVal) × SDict String)
    (kvt : String × CfgValueType) : SDict (Option PyVal) × SDict String :=
  match kvt.2 with
  | .deprecated => (acc.1.pop kvt.1, acc.2)
  | .plain _ =>
    if (acc.1 kvt.1).isNone && (acc.2 kvt.1).isNone then
      (acc.1.set kvt.1 none, acc.2.set kvt.1 "config key not found.")
    else acc

/-- `ConfigSchema.deserialize(values)`.  `schema` is the ordered
key → value-type map the schema holds; `values` the supplied raw dict as an
ordered key/value list (a Python dict, so keys are distinct).  Returns
`(result, errors)`.  Result entries are `Option PyVal` because the
`ValueError` branch stores Python `None` under the key. -/
def ConfigSchema.deserialize (schema : List (String × CfgValueType))
    (values : List (String × String)) : SDict (Option PyVal) × SDict String :=
  schema.foldl ConfigSchema.deserializeStep2
    (values.foldl (ConfigSchema.deserializeStep1 schema) (SDict.empty, SDict.empty))

/-- The broadcast log of a state is exactly the consecutive sequence
numbers `1 … seqNr`, in order. -/
def SeqOk (s : AppState) : Prop :=
  s.published.map Prod.fst = List.range' 1 s.seqNr

/-- The reachability invariant carried through every command: consecutive
broadcast numbering and in-range brightness. -/
def Inv (s : AppState) : Prop :=
  SeqOk s ∧ 0 ≤ s.brightness ∧ s.brightness ≤ 1

/-- The `StaticColorAnimation` class as the orchestrator's registry sees
it: `check_config` accepts everything, `get_max_fps` is 0. -/
def staticColorClass : AnimClass :=
  { checkConfig := fun _ => true, maxFps := 0 }

/-- The `NovaAnimation` class as the orchestrator's registry sees it. -/
def novaClass : AnimClass :=
  { checkConfig := fun _ => true, maxFps := 30 }

/-- A daemon booted like the reference setup: 100 LEDs, the UDP backend
(`maxFps()` is 100), the static-color animation registered as id 0. -/
def demoInit : AppState :=
  GlinApp.initState 100 100 [staticColorClass]

/-- Black, as the wire bytes of a color triple. -/
def black : Fin 256 × Fin 256 × Fin 256 := (0, 0, 0)

/-- A well-formed `scene.add` command for animation 0. -/
def addSceneCmd : Command := .sceneAdd 0 "scene one" black 1000 ""

/-- Commands reaching a state whose scene map is empty while
`activeSceneId` is set: add a scene (auto-activates as scene 1), activate
the nonexistent id 99, then remove scene 1. -/
def emptyScenesCmds : List Command := [addSceneCmd, .sceneSetactive 99, .sceneRm 1]

/-- Commands reaching a state where scene 1 exists and is active but the
main switch is off, so no live animation instance exists. -/
def switchedOffCmds : List Command := [addSceneCmd, .mainswitchState false]

/-- A Nova particle aged one tick past its death point on a 100-LED strip. -/
def nova61 : Nova :=
  { led_count := 100, color := (1, 1, 1), center := 50, external_time := 61,
    time := 61, velocity := 1 }

/-- A freshly created Nova in the middle of a 100-LED strip with full white
color. -/
def novaFresh : Nova :=
  { led_count := 100, color := (1, 1, 1), center := 50, external_time := 0,
    time := 0, velocity := 1 }

/-- A prepared Nova animation holding two coincident fresh particles, with
scene velocity 0 so a tick leaves their age at 0. -/
def demoNovaAnim : NovaAnimation :=
  { led_count := 100, target_fps := 30, config := "", color := (1, 1, 1),
    velocity := 0, novas := [novaFresh, novaFresh] }

/-- The all-black render buffer. -/
noncomputable def zeroBuf : ℤ → ℝ × ℝ × ℝ := fun _ => (0, 0, 0)

/-- A value type that accepts any raw string (used for concrete checks). -/
def demoValueOk : CfgValueType := .plain fun v => .ok (.str v)

/-- A value type that rejects any raw string with message "boom". -/
def demoValueBad : CfgValueType := .plain fun _ => .error "boom"

/-- A small schema exercising all branches of `ConfigSchema.deserialize`. -/
def demoSchema : List (String × CfgValueType) :=
  [("host", demoValueOk), ("port", demoValueBad), ("user", .deprecated),
   ("missing", demoValueOk)]

/-- Supplied raw values for `demoSchema`: one good, one failing, one
deprecated, one unknown; "missing" is not supplied. -/
def demoValues : List (String × String) :=
  [("host", "example"), ("port", "x"), ("user", "old"), ("stray", "1")]

/-- Helper: a packed word is as long as its format width. -/
theorem packUInt_length (w n : ℕ) : (packUInt w n).length = w := by
  simp [packUInt]

/-- C1: a `brightness` request with a frame count other than 2 does not get
the documented `(false, 0, reason)` reply: `_handle_collect_brightness`
returns the 2-tuple `(False, 0, )` (the reason string is missing in the
source), so the three-way unpacking in `handle_collect` raises `ValueError`
and no reply frames are sent at all. -/
theorem collector_brightness_wrong_frames_raises (s : AppState) :
    GlinAppZmqCollector.handleCollect [utf8 "brightness"] s =
      (s, .error "ValueError: not enough values to unpack (expected 3, got 2)") := rfl

/-- C2 (counterexample): the sequence-number frame of a collector reply has
4 bytes (`pack("!I", …)`), not the 8 the claim states: the reply to a
well-formed `mainswitch.toggle` on the freshly booted daemon is
`[[1], [0, 0, 0, 1], utf8 "OK"]`, whose middle frame has length 4. -/
theorem collector_reply_seq_word_cex :
    (GlinAppZmqCollector.handleCollect [utf8 "mainswitch.toggle"] demoInit).2 =
      .ok [[1], [0, 0, 0, 1], utf8 "OK"] ∧
    ([(0 : ℕ), 0, 0, 1].length = 4 ∧ ¬ ([(0 : ℕ), 0, 0, 1].length = 8)) := by
  exact ⟨by decide, by decide, by decide⟩

/-- C2 (amended): whenever the request handler produces its three-part
`(success, seqNr, comment)` result, the synchronous reply is exactly three
frames: a 1-byte boolean flag, the sequence number as a 4-byte (not 8-byte)
big-endian unsigned word, and the UTF-8 message string. -/
theorem collector_reply_three_frames (msg : List (List ℕ)) (s : AppState)
    (ok : Bool) (n : ℕ) (c : String)
    (h : (GlinAppZmqCollector.handleCollectInner msg s).2 = .ok (.triple ok n c)) :
    (GlinAppZmqCollector.handleCollect msg s).2 =
      .ok [[if ok then 1 else 0], packUInt 4 n, utf8 c] ∧
    (GlinAppZmqCollector.handleCollect msg s).1 =
      (GlinAppZmqCollector.handleCollectInner msg s).1 ∧
    ([if ok then (1 : ℕ) else 0].length = 1 ∧ (packUInt 4 n).length = 4) := by
  rcases hp : GlinAppZmqCollector.handleCollectInner msg s with ⟨s', r⟩
  rw [hp] at h
  simp only at h
  subst h
  unfold GlinAppZmqCollector.handleCollect
  rw [hp]
  exact ⟨rfl, rfl, rfl, by simp [packUInt]⟩

/-- C2 (witness): the amended reply-shape theorem applied to a concrete
`mainswitch.toggle` request on the freshly booted daemon. -/
theorem collector_reply_three_frames_witness :
    (GlinAppZmqCollector.handleCollect [utf8 "mainswitch.toggle"] demoInit).2 =
      .ok [[if true then 1 else 0], packUInt 4 1, utf8 "OK"] :=
  (collector_reply_three_frames [utf8 "mainswitch.toggle"] demoInit true 1 "OK"
    (by decide)).1

/-- C4: recoloring the active scene while the main switch is off crashes
instead of succeeding.  After `scene.add` (auto-activated as scene 1) and
`mainswitch.state off`, scene 1 exists and is active, the switch is off and
no live animation instance exists; the `scene.color` command for scene 1
then raises `AttributeError` on `self.state.activeAnimation.setColor`
(escaping `recolorScene`), contradicting the never-throws claim. -/
theorem recolor_active_scene_switch_off_raises :
    (run demoInit switchedOffCmds).mainswitch = false ∧
    (run demoInit switchedOffCmds).activeSceneId = some 1 ∧
    (run demoInit switchedOffCmds).activeAnimation = none ∧
    (dictGet (run demoInit switchedOffCmds).scenes 1).isSome = true ∧
    (step (run demoInit switchedOffCmds) (.sceneColor 1 (255, 0, 0))).2 =
      .error "AttributeError" := by
  exact ⟨by decide, by decide, by decide, by decide, by decide⟩

/-- C3 (counterexample): the very first accepted mutating command — a
`scene.add` on the fresh daemon — triggers first-scene auto-activation and
therefore broadcasts twice: the published sequence numbers after this one
accepted command are `[1, 2]`, not `[1]`. -/
theorem seq_numbers_one_per_command_cex :
    (step demoInit addSceneCmd).2 = .ok (true, 1, "OK") ∧
    (run demoInit [addSceneCmd]).published.map Prod.fst = [1, 2] ∧
    ¬ ([(1 : ℕ), 2] = [1]) := by
  exact ⟨by decide, by decide, by decide⟩

/-- C5 (counterexample): adding a scene into an empty scene map does not
always activate it.  After `emptyScenesCmds` the scene map is empty but
`activeSceneId` is 99 (activating a nonexistent scene is accepted), so the
next `scene.add` — although accepted — leaves `activeSceneId` at 99 instead
of the new scene id 2. -/
theorem first_scene_auto_activation_cex :
    (run demoInit emptyScenesCmds).scenes = [] ∧
    (run demoInit emptyScenesCmds).activeSceneId = some 99 ∧
    (step (run demoInit emptyScenesCmds) addSceneCmd).2 = .ok (true, 5, "OK") ∧
    (step (run demoInit emptyScenesCmds) addSceneCmd).1.sceneIdCtr = 2 ∧
    (step (run demoInit emptyScenesCmds) addSceneCmd).1.activeSceneId = some 99 ∧
    ¬ ((some 99 : Option ℕ) = some 2) := by
  exact ⟨by decide, by decide, by decide, by decide, by decide, by decide⟩

/-- C6 (counterexample): the encoders truncate instead of rounding.  For the
channel value 1/2 the builder emits byte `int(0.5*255) = 127` (and so does
the publisher's `scene.color` encoding), while the claimed
`round(0.5*255)` is 128; for velocity `3/2000` the velocity word encodes
`int(1.5) = 1` while the claimed `round(1.5)` is 2. -/
theorem encoder_truncates_cex :
    MessageBuilder.scene_color 1 7 (1/2, 0, 0) =
      [utf8 "scene.color", packUInt 8 1, packUInt 4 7, [127, 0, 0]] ∧
    specRound ((1/2 : ℚ) * 255) = 128 ∧
    encodePub 1 (.recolorScene 7 (1/2, 0, 0)) =
      [utf8 "scene.color", packUInt 8 1, packUInt 4 7, [127, 0, 0]] ∧
    MessageBuilder.scene_velocity 1 7 (3/2000) =
      [utf8 "scene.velocity", packUInt 8 1, packUInt 4 7, [0, 0, 0, 1]] ∧
    specRound ((3/2000 : ℚ) * 1000) = 2 ∧
    ¬ ((127 : ℕ) = 128) ∧ ¬ ((1 : ℕ) = 2) := by
  have hhalf : pyInt ((1/2 : ℚ) * 255) = 127 := by
    rw [pyInt, if_pos (by norm_num)]; norm_num
  have hz : pyInt ((0 : ℚ) * 255) = 0 := by
    rw [pyInt, if_pos (by norm_num)]; norm_num
  have hv : pyInt ((3/2000 : ℚ) * 1000) = 1 := by
    rw [pyInt, if_pos (by norm_num)]; norm_num
  have hfl : ⌊(1/2 : ℚ) * 255⌋ = 127 := by norm_num
  have hfv : ⌊(3/2000 : ℚ) * 1000⌋ = 1 := by norm_num
  refine ⟨?_, ?_, ?_, ?_, ?_, by decide, by decide⟩
  · simp only [MessageBuilder.scene_color, hhalf, hz]; decide
  · simp only [specRound]
    rw [hfl, if_neg (by norm_num), if_neg (by norm_num), if_neg (by decide)]
    norm_num
  · simp only [encodePub, hhalf, hz]; decide
  · simp only [MessageBuilder.scene_velocity, hv]; decide
  · simp only [specRound]
    rw [hfv, if_neg (by norm_num), if_neg (by norm_num), if_neg (by decide)]
    norm_num

/-- Helper: Python truncation is the floor on nonnegative values. -/
theorem pyInt_eq_floor (q : ℚ) (h : 0 ≤ q) : pyInt q = ⌊q⌋ := if_pos h

/-- Helper: appending the next sequence number keeps the log consecutive. -/
theorem seqOk_append (l : List (ℕ × PubPayload)) (n : ℕ) (p : PubPayload)
    (h : l.map Prod.fst = List.range' 1 n) :
    (l ++ [(n + 1, p)]).map Prod.fst = List.range' 1 (n + 1) := by
  rw [List.map_append, h, List.range'_concat]
  simp [Nat.add_comm]

/-- Helper: `_doNextFrame` touches neither the log nor the brightness. -/
theorem inv_doNextFrame (s : AppState) (h : Inv s) : Inv (GlinApp.doNextFrame s) := by
  unfold GlinApp.doNextFrame
  split <;> exact h

/-- Helper: `_deactivateScene` touches neither the log nor the brightness. -/
theorem inv_deactivateScene (s : AppState) (h : Inv s) : Inv (GlinApp.deactivateScene s) := by
  unfold GlinApp.deactivateScene
  split <;> exact h

/-- Helper: `_activateScene` publishes nothing. -/
theorem inv_activateScene (s : AppState) (h : Inv s) : Inv (GlinApp.activateScene s).1 := by
  unfold GlinApp.activateScene
  split
  · split
    · exact h
    · exact inv_doNextFrame _ h
  · exact h

/-- Helper: `setBrightness` clamps into `[0, 1]` and broadcasts once. -/
theorem inv_setBrightness (s : AppState) (b : ℚ) (h : Inv s) :
    Inv (GlinApp.setBrightness s b).1 := by
  unfold GlinApp.setBrightness
  dsimp only [publish]
  exact ⟨seqOk_append _ _ _ h.1,
    le_min zero_le_one (le_max_right b 0), min_le_left 1 (max b 0)⟩

/-- Helper: transport `inv_activateScene` along a `split` equation. -/
theorem inv_activateScene_eq (s0 s4 : AppState) (r : Except String Unit)
    (heq : GlinApp.activateScene s0 = (s4, r)) (h : Inv s0) : Inv s4 := by
  have h2 := inv_activateScene s0 h
  rw [heq] at h2
  exact h2

/-- Helper: `setActiveScene` broadcasts once in its mutating branch. -/
theorem inv_setActiveScene (s : AppState) (sid : ℕ) (h : Inv s) :
    Inv (GlinApp.setActiveScene s sid).1 := by
  unfold GlinApp.setActiveScene
  split
  · dsimp only [publish]
    have h1 := inv_deactivateScene s h
    split
    · split
      · next s4 u heq =>
        exact inv_activateScene_eq _ _ _ heq ⟨seqOk_append _ _ _ h1.1, h1.2.1, h1.2.2⟩
      · next s4 e heq =>
        exact inv_activateScene_eq _ _ _ heq ⟨seqOk_append _ _ _ h1.1, h1.2.1, h1.2.2⟩
    · exact ⟨seqOk_append _ _ _ h1.1, h1.2.1, h1.2.2⟩
  · exact h

/-- Helper: transport `inv_setActiveScene` along a `split` equation. -/
theorem inv_setActiveScene_eq (s0 s3 : AppState) (sid : ℕ) (r : Except String OpResult)
    (heq : GlinApp.setActiveScene s0 sid = (s3, r)) (h : Inv s0) : Inv s3 := by
  have h2 := inv_setActiveScene s0 sid h
  rw [heq] at h2
  exact h2

/-- Helper: `registerScene` broadcasts once, plus once more through the
auto-activation's `setActiveScene`. -/
theorem inv_registerScene (s : AppState) (a : ℕ) (nm : String) (c : ℚ × ℚ × ℚ)
    (v : ℚ) (cfg : String) (h : Inv s) :
    Inv (GlinApp.registerScene s a nm c v cfg).1 := by
  unfold GlinApp.registerScene
  split
  · split
    · exact h
    · dsimp only [publish]
      split
      · split
        · next s3 u heq =>
          exact inv_setActiveScene_eq _ _ _ _ heq ⟨seqOk_append _ _ _ h.1, h.2.1, h.2.2⟩
        · next s3 e heq =>
          exact inv_setActiveScene_eq _ _ _ _ heq ⟨seqOk_append _ _ _ h.1, h.2.1, h.2.2⟩
      · exact ⟨seqOk_append _ _ _ h.1, h.2.1, h.2.2⟩
  · exact h

/-- Helper: `removeScene` broadcasts once when it deletes. -/
theorem inv_removeScene (s : AppState) (sid : ℕ) (h : Inv s) :
    Inv (GlinApp.removeScene s sid).1 := by
  unfold GlinApp.removeScene
  split
  · exact h
  · split
    · exact h
    · dsimp only [publish]
      exact ⟨seqOk_append _ _ _ h.1, h.2.1, h.2.2⟩

/-- Helper: `renameScene` broadcasts once when the scene exists. -/
theorem inv_renameScene (s : AppState) (sid : ℕ) (nm : String) (h : Inv s) :
    Inv (GlinApp.renameScene s sid nm).1 := by
  unfold GlinApp.renameScene
  split
  · exact h
  · dsimp only [publish]
    exact ⟨seqOk_append _ _ _ h.1, h.2.1, h.2.2⟩

/-- Helper: `reconfigScene` broadcasts once when the scene exists. -/
theorem inv_reconfigScene (s : AppState) (sid : ℕ) (cfg : String) (h : Inv s) :
    Inv (GlinApp.reconfigScene s sid cfg).1 := by
  unfold GlinApp.reconfigScene
  split
  · exact h
  · dsimp only [publish]
    exact ⟨seqOk_append _ _ _ h.1, h.2.1, h.2.2⟩

/-- Helper: `recolorScene` broadcasts once when the scene exists — also on
the path that subsequently raises `AttributeError`. -/
theorem inv_recolorScene (s : AppState) (sid : ℕ) (c : ℚ × ℚ × ℚ) (h : Inv s) :
    Inv (GlinApp.recolorScene s sid c).1 := by
  unfold GlinApp.recolorScene
  split
  · exact h
  · dsimp only [publish]
    split
    · split
      · exact ⟨seqOk_append _ _ _ h.1, h.2.1, h.2.2⟩
      · exact inv_doNextFrame _ ⟨seqOk_append _ _ _ h.1, h.2.1, h.2.2⟩
    · exact ⟨seqOk_append _ _ _ h.1, h.2.1, h.2.2⟩

/-- Helper: `velocityScene` mirrors `recolorScene`. -/
theorem inv_velocityScene (s : AppState) (sid : ℕ) (v : ℚ) (h : Inv s) :
    Inv (GlinApp.velocityScene s sid v).1 := by
  unfold GlinApp.velocityScene
  split
  · exact h
  · dsimp only [publish]
    split
    · split
      · exact ⟨seqOk_append _ _ _ h.1, h.2.1, h.2.2⟩
      · exact inv_doNextFrame _ ⟨seqOk_append _ _ _ h.1, h.2.1, h.2.2⟩
    · exact ⟨seqOk_append _ _ _ h.1, h.2.1, h.2.2⟩

/-- Helper: `setMainSwitch` broadcasts once when the state flips. -/
theorem inv_setMainSwitch (s : AppState) (b : Bool) (h : Inv s) :
    Inv (GlinApp.setMainSwitch s b).1 := by
  unfold GlinApp.setMainSwitch
  split
  · exact h
  · dsimp only [publish]
    split
    · split
      · next s3 u heq =>
        exact inv_activateScene_eq _ _ _ heq ⟨seqOk_append _ _ _ h.1, h.2.1, h.2.2⟩
      · next s3 e heq =>
        exact inv_activateScene_eq _ _ _ heq ⟨seqOk_append _ _ _ h.1, h.2.1, h.2.2⟩
    · exact inv_deactivateScene _ ⟨seqOk_append _ _ _ h.1, h.2.1, h.2.2⟩

/-- Helper: `toggleMainSwitch` is `setMainSwitch` on the negated state. -/
theorem inv_toggleMainSwitch (s : AppState) (h : Inv s) :
    Inv (GlinApp.toggleMainSwitch s).1 :=
  inv_setMainSwitch s (!s.mainswitch) h

/-- Helper: every collector-dispatched command preserves the invariant. -/
theorem inv_step (s : AppState) (c : Command) (h : Inv s) : Inv (step s c).1 := by
  cases c
  case brightness b => exact inv_setBrightness s _ h
  case mainswitchState b => exact inv_setMainSwitch s b h
  case mainswitchToggle => exact inv_toggleMainSwitch s h
  case sceneAdd a nm cb v cfg => exact inv_registerScene s a nm _ _ cfg h
  case sceneConfig sid cfg => exact inv_reconfigScene s sid cfg h
  case sceneColor sid cb => exact inv_recolorScene s sid _ h
  case sceneVelocity sid v => exact inv_velocityScene s sid _ h
  case sceneName sid nm => exact inv_renameScene s sid nm h
  case sceneRm sid => exact inv_removeScene s sid h
  case sceneSetactive sid => exact inv_setActiveScene s sid h

/-- Helper: the invariant holds along any command sequence. -/
theorem inv_run (s : AppState) (cmds : List Command) (h : Inv s) : Inv (run s cmds) := by
  induction cmds generalizing s with
  | nil => exact h
  | cons c rest ih => exact ih _ (inv_step s c h)

/-- Helper: the freshly constructed daemon satisfies the invariant. -/
theorem inv_initState (numLed : ℕ) (hw : WithTop ℚ) (classes : List AnimClass) :
    Inv (GlinApp.initState numLed hw classes) :=
  ⟨rfl, by simp [GlinApp.initState], by simp [GlinApp.initState]⟩

/-- C3 (amended): from the initial state, the broadcast log after any
command sequence carries exactly the consecutive sequence numbers
`1 … seqNr` in send order, with no gaps and no repeats.  (Each accepted
command broadcasts at least once, but a `scene.add` that triggers
first-scene auto-activation broadcasts twice — `scene.add` then
`scene.setactive` — so the count of broadcasts can exceed the count of
accepted commands; see the counterexample.) -/
theorem published_seq_consecutive (numLed : ℕ) (hw : WithTop ℚ)
    (classes : List AnimClass) (cmds : List Command) :
    (run (GlinApp.initState numLed hw classes) cmds).published.map Prod.fst =
      List.range' 1 ((run (GlinApp.initState numLed hw classes) cmds).seqNr) :=
  (inv_run _ cmds (inv_initState numLed hw classes)).1

/-- C9: in every state reachable from the initial application state by any
command sequence the stored brightness lies in `[0, 1]`: it starts at 1.0
and `setBrightness`, the only writer, clamps its argument before storing. -/
theorem brightness_in_unit_interval (numLed : ℕ) (hw : WithTop ℚ)
    (classes : List AnimClass) (cmds : List Command) :
    0 ≤ (run (GlinApp.initState numLed hw classes) cmds).brightness ∧
      (run (GlinApp.initState numLed hw classes) cmds).brightness ≤ 1 :=
  (inv_run _ cmds (inv_initState numLed hw classes)).2

/-- Helper: `_doNextFrame` keeps the active-scene id. -/
theorem activeSceneId_doNextFrame (s : AppState) :
    (GlinApp.doNextFrame s).activeSceneId = s.activeSceneId := by
  unfold GlinApp.doNextFrame
  split <;> rfl

/-- Helper: `_activateScene` keeps the active-scene id. -/
theorem activeSceneId_activateScene (s : AppState) :
    (GlinApp.activateScene s).1.activeSceneId = s.activeSceneId := by
  unfold GlinApp.activateScene
  split
  · split
    · rfl
    · rw [activeSceneId_doNextFrame]
  · rfl

/-- Helper: transport along a `split` equation. -/
theorem activeSceneId_activateScene_eq (s0 s4 : AppState) (r : Except String Unit)
    (heq : GlinApp.activateScene s0 = (s4, r)) : s4.activeSceneId = s0.activeSceneId := by
  have h2 := activeSceneId_activateScene s0
  rw [heq] at h2
  exact h2

/-- Helper: in its mutating branch `setActiveScene` records the new id. -/
theorem activeSceneId_setActiveScene (s : AppState) (sid : ℕ)
    (h : s.activeSceneId ≠ some sid) :
    (GlinApp.setActiveScene s sid).1.activeSceneId = some sid := by
  unfold GlinApp.setActiveScene
  rw [if_pos h]
  dsimp only [publish]
  split
  · split
    · next s4 u heq => rw [activeSceneId_activateScene_eq _ _ _ heq]
    · next s4 e heq => rw [activeSceneId_activateScene_eq _ _ _ heq]
  · rfl

/-- Helper: transport along a `split` equation. -/
theorem activeSceneId_setActiveScene_eq (s0 s3 : AppState) (sid : ℕ)
    (r : Except String OpResult) (heq : GlinApp.setActiveScene s0 sid = (s3, r))
    (h : s0.activeSceneId ≠ some sid) : s3.activeSceneId = some sid := by
  have h2 := activeSceneId_setActiveScene s0 sid h
  rw [heq] at h2
  exact h2

/-- C5 (amended): an accepted add-scene command auto-activates the new
scene whenever `activeSceneId` is unset (`None`) — rather than whenever the
scene map is empty, which differs in the reachable corner where a
nonexistent id was explicitly activated and the scene map emptied. -/
theorem first_scene_auto_activation (s : AppState) (a : ℕ) (nm : String)
    (c : ℚ × ℚ × ℚ) (v : ℚ) (cfg : String) (n : ℕ) (m : String)
    (hnone : s.activeSceneId = none)
    (hacc : (GlinApp.registerScene s a nm c v cfg).2 = .ok (true, n, m)) :
    (GlinApp.registerScene s a nm c v cfg).1.activeSceneId = some (s.sceneIdCtr + 1) := by
  unfold GlinApp.registerScene at hacc ⊢
  split at hacc
  · rw [dif_pos (by assumption)] at *
    split at hacc
    · simp at hacc
    · rw [if_neg (by assumption)] at *
      dsimp only [publish] at hacc ⊢
      rw [if_pos hnone] at hacc ⊢
      split
      · next s3 r heq =>
        exact activeSceneId_setActiveScene_eq _ _ _ _ heq (by simp [hnone])
      · next s3 e heq =>
        exact activeSceneId_setActiveScene_eq _ _ _ _ heq (by simp [hnone])
  · simp at hacc

/-- C5 (witness): the amended auto-activation theorem on the fresh daemon. -/
theorem first_scene_auto_activation_witness :
    (GlinApp.registerScene demoInit 0 "w" (0, 0, 0) 0 "").1.activeSceneId = some 1 :=
  first_scene_auto_activation demoInit 0 "w" (0, 0, 0) 0 "" 1 "OK" rfl (by decide)

/-- C6 (amended): for channels in `[0, 1]` and nonnegative velocity the wire
encoders — the message builders and the publisher — emit the byte
`⌊channel * 255⌋` per color channel and the 4-byte big-endian word of
`⌊velocity * 1000⌋`: Python `int()` truncation, not `round()`. -/
theorem encoders_truncate (seq sid aid : ℕ) (nm cfg : String) (a b c v : ℚ)
    (ha0 : 0 ≤ a) (hb0 : 0 ≤ b) (hc0 : 0 ≤ c) (hv0 : 0 ≤ v)
    (_ha1 : a ≤ 1) (_hb1 : b ≤ 1) (_hc1 : c ≤ 1) :
    MessageBuilder.scene_color seq sid (a, b, c) =
      [utf8 "scene.color", packUInt 8 seq, packUInt 4 sid,
       [⌊a * 255⌋.toNat, ⌊b * 255⌋.toNat, ⌊c * 255⌋.toNat]] ∧
    MessageBuilder.scene_velocity seq sid v =
      [utf8 "scene.velocity", packUInt 8 seq, packUInt 4 sid,
       packUInt 4 ⌊v * 1000⌋.toNat] ∧
    MessageBuilder.scene_add seq sid aid nm (a, b, c) v cfg =
      [utf8 "scene.add", packUInt 8 seq, packUInt 4 sid, packUInt 4 aid, utf8 nm,
       [⌊a * 255⌋.toNat, ⌊b * 255⌋.toNat, ⌊c * 255⌋.toNat],
       packUInt 4 ⌊v * 1000⌋.toNat, utf8 cfg] ∧
    encodePub seq (.recolorScene sid (a, b, c)) =
      [utf8 "scene.color", packUInt 8 seq, packUInt 4 sid,
       [⌊a * 255⌋.toNat, ⌊b * 255⌋.toNat, ⌊c * 255⌋.toNat]] ∧
    encodePub seq (.addScene sid aid nm (a, b, c) v cfg) =
      [utf8 "scene.add", packUInt 8 seq, packUInt 4 sid, packUInt 4 aid, utf8 nm,
       [⌊a * 255⌋.toNat, ⌊b * 255⌋.toNat, ⌊c * 255⌋.toNat],
       packUInt 4 ⌊v * 1000⌋.toNat, utf8 cfg] ∧
    encodePub seq (.velocityScene sid v) =
      [utf8 "scene.velocity", packUInt 8 seq, packUInt 4 sid,
       packUInt 4 ⌊v * 1000⌋.toNat] := by
  have ha := pyInt_eq_floor (a * 255) (mul_nonneg ha0 (by norm_num))
  have hb := pyInt_eq_floor (b * 255) (mul_nonneg hb0 (by norm_num))
  have hc := pyInt_eq_floor (c * 255) (mul_nonneg hc0 (by norm_num))
  have hv := pyInt_eq_floor (v * 1000) (mul_nonneg hv0 (by norm_num))
  refine ⟨?_, ?_, ?_, ?_, ?_, ?_⟩ <;>
    simp [MessageBuilder.scene_color, MessageBuilder.scene_velocity,
      MessageBuilder.scene_add, encodePub, ha, hb, hc, hv]

/-- C6 (witness): the truncation theorem at channel `(1/2, 0, 1)` and
velocity `3/2000`. -/
theorem encoders_truncate_witness :
    MessageBuilder.scene_color 2 9 (1/2, 0, 1) =
      [utf8 "scene.color", packUInt 8 2, packUInt 4 9,
       [⌊(1/2 : ℚ) * 255⌋.toNat, ⌊(0 : ℚ) * 255⌋.toNat, ⌊(1 : ℚ) * 255⌋.toNat]] :=
  (encoders_truncate 2 9 0 "nova" "" (1/2) 0 1 (3/2000) (by norm_num) (by norm_num)
    (by norm_num) (by norm_num) (by norm_num) (by norm_num) (by norm_num)).1

/-- C7: a Nova particle is dead exactly when `center - time + 10 < 0` and
`center + time ≥ led_count + 10` both hold; for `center = 50`,
`led_count = 100` that is exactly `time > 60`, and such a dead particle's
`write_data` writes to no buffer position at all. -/
theorem nova_dead_and_silent :
    (∀ n : Nova, n.dead = true ↔
      (n.center - n.time + 10 < 0 ∧ n.led_count + 10 ≤ n.center + n.time)) ∧
    (∀ n : Nova, n.center = 50 → n.led_count = 100 → (n.dead = true ↔ 60 < n.time)) ∧
    (∀ (n : Nova) (data : ℤ → ℝ × ℝ × ℝ), n.center = 50 → n.led_count = 100 →
      60 < n.time → n.write_data data = data) := by
  refine ⟨?_, ?_, ?_⟩
  · intro n
    simp [Nova.dead]
  · intro n hc hl
    simp only [Nova.dead, hc, hl, Bool.and_eq_true, decide_eq_true_eq]
    omega
  · intro n data hc hl ht
    have h24 : ¬ n.time < 24 := by omega
    have h0 : 0 < n.time := by omega
    have hL : ¬ (-10 ≤ n.center - n.time) := by omega
    have hR : ¬ (n.center + n.time < n.led_count + 10) := by omega
    simp [Nova.write_data, h24, h0, hL, hR]

/-- C7 (witness): the death characterisation and the silent render applied
to the concrete particle `nova61` (center 50, strip 100, age 61). -/
theorem nova_dead_and_silent_witness :
    (nova61.dead = true ↔ 60 < nova61.time) ∧ nova61.write_data zeroBuf = zeroBuf :=
  ⟨nova_dead_and_silent.2.1 nova61 rfl rfl,
   nova_dead_and_silent.2.2 nova61 zeroBuf rfl rfl (by decide)⟩

/-- Helper: a clipped channel is nonnegative. -/
theorem clip1_nonneg (x : ℝ) : 0 ≤ clip1 x :=
  le_min zero_le_one (le_max_left 0 x)

/-- Helper: a clipped channel is at most one. -/
theorem clip1_le_one (x : ℝ) : clip1 x ≤ 1 :=
  min_le_left 1 (max 0 x)

/-- C10: `render_next_frame` overwrites the caller's buffer with the
accumulated particle light clipped to `[0, 1]` per channel — so every
channel it writes lies in `[0, 1]` — even though the internal accumulation
can exceed 1 (two coincident fresh particles sum to channel value 2, which
leaves the buffer as exactly 1). -/
theorem render_next_frame_clipped :
    (∀ (a : NovaAnimation) (spawn : Option Nova) (buf : ℤ → ℝ × ℝ × ℝ) (p : ℤ),
      (a.render_next_frame spawn buf).2 p =
        clip3 ((NovaAnimation.accumulate a.velocity (a.novas ++ spawn.toList)).2 p) ∧
      0 ≤ ((a.render_next_frame spawn buf).2 p).1 ∧
      ((a.render_next_frame spawn buf).2 p).1 ≤ 1 ∧
      0 ≤ ((a.render_next_frame spawn buf).2 p).2.1 ∧
      ((a.render_next_frame spawn buf).2 p).2.1 ≤ 1 ∧
      0 ≤ ((a.render_next_frame spawn buf).2 p).2.2 ∧
      ((a.render_next_frame spawn buf).2 p).2.2 ≤ 1) ∧
    1 < ((NovaAnimation.accumulate demoNovaAnim.velocity demoNovaAnim.novas).2 50).1 ∧
    ((demoNovaAnim.render_next_frame none zeroBuf).2 50).1 = 1 := by
  have htick : novaFresh.tick 0 = novaFresh := by
    norm_num [Nova.tick, novaFresh, pyInt]
  have hwd : ∀ d : ℤ → ℝ × ℝ × ℝ, novaFresh.write_data d = bufAdd d 50 (1, 1, 1) := by
    intro d
    norm_num [Nova.write_data, novaFresh, divRGB, Real.rpow_zero]
  have hacc : ((NovaAnimation.accumulate demoNovaAnim.velocity demoNovaAnim.novas).2 50).1 = 2 := by
    simp only [NovaAnimation.accumulate, demoNovaAnim, List.foldl, htick, hwd]
    norm_num [bufAdd, addRGB]
  refine ⟨?_, ?_, ?_⟩
  · intro a spawn buf p
    refine ⟨rfl, ?_, ?_, ?_, ?_, ?_, ?_⟩ <;>
      · simp only [NovaAnimation.render_next_frame, clip3]
        first
          | exact clip1_nonneg _
          | exact clip1_le_one _
  · rw [hacc]; norm_num
  · show clip1 ((NovaAnimation.accumulate demoNovaAnim.velocity (demoNovaAnim.novas ++ [])).2 50).1 = 1
    rw [List.append_nil, hacc]
    norm_num [clip1]

/-- Helper: a successful association-list lookup comes from a member. -/
theorem lookup_mem {α β : Type} [BEq α] [LawfulBEq α] (l : List (α × β)) (k : α) (v : β)
    (h : List.lookup k l = some v) : (k, v) ∈ l := by
  induction l with
  | nil => simp [List.lookup] at h
  | cons p rest ih =>
    obtain ⟨a, b⟩ := p
    rw [List.lookup] at h
    by_cases hab : k = a
    · subst hab
      simp only [beq_self_eq_true] at h
      simp only [Option.some.injEq] at h
      subst h
      exact List.mem_cons_self _ _
    · simp only [beq_eq_false_iff_ne.2 hab] at h
      exact List.mem_cons_of_mem _ (ih h)

/-- Helper: a key occurring in the list makes its lookup succeed. -/
theorem mem_keys_lookup_isSome {α β : Type} [BEq α] [LawfulBEq α] (l : List (α × β)) (k : α)
    (h : k ∈ l.map Prod.fst) : (List.lookup k l).isSome = true := by
  induction l with
  | nil => simp at h
  | cons p rest ih =>
    obtain ⟨a, b⟩ := p
    rw [List.lookup]
    by_cases hab : k = a
    · subst hab
      simp only [beq_self_eq_true]
      rfl
    · simp only [List.map_cons, List.mem_cons] at h
      rcases h with h | h
      · exact absurd h hab
      · simp only [beq_eq_false_iff_ne.2 hab]
        exact ih h

/-- Helper: the first deserialize loop leaves other keys alone. -/
theorem step1_other (schema : List (String × CfgValueType))
    (acc : SDict (Option PyVal) × SDict String) (kv : String × String) (k : String)
    (hne : k ≠ kv.1) :
    (ConfigSchema.deserializeStep1 schema acc kv).1 k = acc.1 k ∧
    (ConfigSchema.deserializeStep1 schema acc kv).2 k = acc.2 k := by
  unfold ConfigSchema.deserializeStep1
  split
  · exact ⟨rfl, by simp [SDict.set, hne]⟩
  · split
    · exact ⟨by simp [SDict.set, hne], rfl⟩
    · exact ⟨by simp [SDict.set, hne], by simp [SDict.set, hne]⟩

/-- Helper: folding the first loop over pairs without key `k` leaves the
accumulators unchanged at `k`. -/
theorem p1_skip (schema : List (String × CfgValueType)) (values : List (String × String))
    (acc : SDict (Option PyVal) × SDict String) (k : String)
    (hk : k ∉ values.map Prod.fst) :
    ((values.foldl (ConfigSchema.deserializeStep1 schema) acc).1 k = acc.1 k) ∧
    ((values.foldl (ConfigSchema.deserializeStep1 schema) acc).2 k = acc.2 k) := by
  induction values generalizing acc with
  | nil => exact ⟨rfl, rfl⟩
  | cons kv rest ih =>
    simp only [List.map_cons, List.mem_cons, not_or] at hk
    rw [List.foldl_cons]
    obtain ⟨h1, h2⟩ := ih (ConfigSchema.deserializeStep1 schema acc kv) hk.2
    obtain ⟨g1, g2⟩ := step1_other schema acc kv k hk.1
    exact ⟨h1.trans g1, h2.trans g2⟩

/-- Helper: what the first loop stores under a supplied key. -/
theorem p1_hit (schema : List (String × CfgValueType)) (values : List (String × String))
    (acc : SDict (Option PyVal) × SDict String) (k v : String)
    (hnd : (values.map Prod.fst).Nodup) (hmem : (k, v) ∈ values) :
    ((values.foldl (ConfigSchema.deserializeStep1 schema) acc).1 k,
      (values.foldl (ConfigSchema.deserializeStep1 schema) acc).2 k) =
      (match List.lookup k schema with
       | none => (acc.1 k, some "unknown config key.")
       | some vt =>
         match vt.deserialize v with
         | .ok pv => (some (some pv), acc.2 k)
         | .error e => (some none, some e)) := by
  induction values generalizing acc with
  | nil => simp at hmem
  | cons kv rest ih =>
    simp only [List.map_cons, List.nodup_cons] at hnd
    rw [List.foldl_cons]
    rcases List.mem_cons.1 hmem with heq | hmem'
    · subst heq
      obtain ⟨h1, h2⟩ :=
        p1_skip schema rest (ConfigSchema.deserializeStep1 schema acc (k, v)) k hnd.1
      rw [h1, h2]
      unfold ConfigSchema.deserializeStep1
      dsimp only
      split
      · simp [SDict.set]
      · split <;> simp [SDict.set]
    · have hkin : k ∈ rest.map Prod.fst := List.mem_map_of_mem Prod.fst hmem'
      have hne : k ≠ kv.1 := fun h => hnd.1 (h ▸ hkin)
      obtain ⟨g1, g2⟩ := step1_other schema acc kv k hne
      rw [ih (ConfigSchema.deserializeStep1 schema acc kv) hnd.2 hmem']
      simp only [g1, g2]

/-- Helper: the second deserialize loop leaves other keys alone. -/
theorem step2_other (acc : SDict (Option PyVal) × SDict String)
    (kvt : String × CfgValueType) (k : String) (hne : k ≠ kvt.1) :
    (ConfigSchema.deserializeStep2 acc kvt).1 k = acc.1 k ∧
    (ConfigSchema.deserializeStep2 acc kvt).2 k = acc.2 k := by
  unfold ConfigSchema.deserializeStep2
  split
  · exact ⟨by simp [SDict.pop, hne], rfl⟩
  · split
    · exact ⟨by simp [SDict.set, hne], by simp [SDict.set, hne]⟩
    · exact ⟨rfl, rfl⟩

/-- Helper: folding the second loop over entries without key `k` leaves the
accumulators unchanged at `k`. -/
theorem p2_skip (schema : List (String × CfgValueType))
    (acc : SDict (Option PyVal) × SDict String) (k : String)
    (hk : k ∉ schema.map Prod.fst) :
    ((schema.foldl ConfigSchema.deserializeStep2 acc).1 k = acc.1 k) ∧
    ((schema.foldl ConfigSchema.deserializeStep2 acc).2 k = acc.2 k) := by
  induction schema generalizing acc with
  | nil => exact ⟨rfl, rfl⟩
  | cons kvt rest ih =>
    simp only [List.map_cons, List.mem_cons, not_or] at hk
    rw [List.foldl_cons]
    obtain ⟨h1, h2⟩ := ih (ConfigSchema.deserializeStep2 acc kvt) hk.2
    obtain ⟨g1, g2⟩ := step2_other acc kvt k hk.1
    exact ⟨h1.trans g1, h2.trans g2⟩

/-- Helper: the second loop drops a `Deprecated` key from the result and
does not touch its errors entry. -/
theorem p2_deprecated (schema : List (String × CfgValueType))
    (acc : SDict (Option PyVal) × SDict String) (k : String)
    (hnd : (schema.map Prod.fst).Nodup) (hmem : (k, CfgValueType.deprecated) ∈ schema) :
    ((schema.foldl ConfigSchema.deserializeStep2 acc).1 k = none) ∧
    ((schema.foldl ConfigSchema.deserializeStep2 acc).2 k = acc.2 k) := by
  induction schema generalizing acc with
  | nil => simp at hmem
  | cons kvt rest ih =>
    simp only [List.map_cons, List.nodup_cons] at hnd
    rw [List.foldl_cons]
    rcases List.mem_cons.1 hmem with heq | hmem'
    · subst heq
      obtain ⟨h1, h2⟩ := p2_skip rest (ConfigSchema.deserializeStep2 acc (k, .deprecated)) k hnd.1
      refine ⟨h1.trans ?_, h2.trans ?_⟩ <;> simp [ConfigSchema.deserializeStep2, SDict.pop]
    · have hkin : k ∈ rest.map Prod.fst := List.mem_map_of_mem Prod.fst hmem'
      have hne : k ≠ kvt.1 := fun h => hnd.1 (h ▸ hkin)
      obtain ⟨g1, g2⟩ := step2_other acc kvt k hne
      obtain ⟨h1, h2⟩ := ih (ConfigSchema.deserializeStep2 acc kvt) hnd.2 hmem'
      exact ⟨h1, h2.trans g2⟩

/-- Helper: the second loop's behaviour at a declared plain key: absent and
error-free keys receive the "config key not found." error, all others are
left untouched. -/
theorem p2_plain (schema : List (String × CfgValueType))
    (acc : SDict (Option PyVal) × SDict String) (k : String) (f : String → Except String PyVal)
    (hnd : (schema.map Prod.fst).Nodup) (hmem : (k, CfgValueType.plain f) ∈ schema) :
    (((acc.1 k).isNone && (acc.2 k).isNone) = true →
      (schema.foldl ConfigSchema.deserializeStep2 acc).1 k = some none ∧
      (schema.foldl ConfigSchema.deserializeStep2 acc).2 k = some "config key not found.") ∧
    (((acc.1 k).isNone && (acc.2 k).isNone) = false →
      (schema.foldl ConfigSchema.deserializeStep2 acc).1 k = acc.1 k ∧
      (schema.foldl ConfigSchema.deserializeStep2 acc).2 k = acc.2 k) := by
  induction schema generalizing acc with
  | nil => simp at hmem
  | cons kvt rest ih =>
    simp only [List.map_cons, List.nodup_cons] at hnd
    rw [List.foldl_cons]
    rcases List.mem_cons.1 hmem with heq | hmem'
    · subst heq
      constructor
      · intro hcond
        obtain ⟨h1, h2⟩ :=
          p2_skip rest (ConfigSchema.deserializeStep2 acc (k, .plain f)) k hnd.1
        refine ⟨h1.trans ?_, h2.trans ?_⟩ <;>
          · simp only [ConfigSchema.deserializeStep2]
            rw [hcond]
            simp [SDict.set]
      · intro hcond
        obtain ⟨h1, h2⟩ :=
          p2_skip rest (ConfigSchema.deserializeStep2 acc (k, .plain f)) k hnd.1
        refine ⟨h1.trans ?_, h2.trans ?_⟩ <;>
          · simp only [ConfigSchema.deserializeStep2]
            rw [hcond]
            simp
    · have hkin : k ∈ rest.map Prod.fst := List.mem_map_of_mem Prod.fst hmem'
      have hne : k ≠ kvt.1 := fun h => hnd.1 (h ▸ hkin)
      obtain ⟨g1, g2⟩ := step2_other acc kvt k hne
      have ih' := ih (ConfigSchema.deserializeStep2 acc kvt) hnd.2 hmem'
      rw [g1, g2] at ih'
      constructor
      · intro hcond
        obtain ⟨h1, h2⟩ := ih'.1 hcond
        exact ⟨h1, h2⟩
      · intro hcond
        obtain ⟨h1, h2⟩ := ih'.2 hcond
        exact ⟨h1, h2⟩

/-- C8: the contract of `ConfigSchema.deserialize` on a schema and a
supplied raw-value dict (both with distinct keys, as Python dicts are):
supplied keys unknown to the schema error with "unknown config key.";
supplied keys whose value type rejects the raw value carry that value
type's message; declared non-`Deprecated` keys that were not supplied error
with "config key not found."; and `Deprecated` keys are dropped from the
returned typed values. -/
theorem config_deserialize_contract (schema : List (String × CfgValueType))
    (values : List (String × String))
    (hs : (schema.map Prod.fst).Nodup) (hv : (values.map Prod.fst).Nodup) :
    (∀ k v, (k, v) ∈ values → List.lookup k schema = none →
      (ConfigSchema.deserialize schema values).2 k = some "unknown config key.") ∧
    (∀ k v vt e, (k, v) ∈ values → List.lookup k schema = some vt →
      vt.deserialize v = .error e →
      (ConfigSchema.deserialize schema values).2 k = some e) ∧
    (∀ k vt, (k, vt) ∈ schema → vt ≠ .deprecated → k ∉ values.map Prod.fst →
      (ConfigSchema.deserialize schema values).2 k = some "config key not found." ∧
      (ConfigSchema.deserialize schema values).1 k = some none) ∧
    (∀ k, (k, CfgValueType.deprecated) ∈ schema →
      (ConfigSchema.deserialize schema values).1 k = none) := by
  unfold ConfigSchema.deserialize
  refine ⟨?_, ?_, ?_, ?_⟩
  · intro k v hmem hlk
    have hks : k ∉ schema.map Prod.fst := by
      intro hin
      have := mem_keys_lookup_isSome schema k hin
      rw [hlk] at this
      simp at this
    have hp2 := p2_skip schema (values.foldl (ConfigSchema.deserializeStep1 schema) (SDict.empty, SDict.empty)) k hks
    have hp1 := p1_hit schema values (SDict.empty, SDict.empty) k v hv hmem
    simp only [hlk] at hp1
    rw [Prod.mk.injEq] at hp1
    exact hp2.2.trans hp1.2
  · intro k v vt e hmem hlk herr
    have hmems : (k, vt) ∈ schema := lookup_mem schema k vt hlk
    cases vt with
    | deprecated => simp [CfgValueType.deserialize] at herr
    | plain f =>
      have hp1 := p1_hit schema values (SDict.empty, SDict.empty) k v hv hmem
      simp only [hlk, herr] at hp1
      rw [Prod.mk.injEq] at hp1
      have hp2 := p2_plain schema (values.foldl (ConfigSchema.deserializeStep1 schema) (SDict.empty, SDict.empty)) k f hs hmems
      have hcond : ((((values.foldl (ConfigSchema.deserializeStep1 schema)
          (SDict.empty, SDict.empty)).1 k).isNone &&
          (((values.foldl (ConfigSchema.deserializeStep1 schema)
          (SDict.empty, SDict.empty)).2 k)).isNone) = false) := by
        rw [hp1.1, hp1.2]
        rfl
      exact (hp2.2 hcond).2.trans hp1.2
  · intro k vt hmem hne hnotin
    have hp1 := p1_skip schema values (SDict.empty, SDict.empty) k hnotin
    cases vt with
    | deprecated => exact absurd rfl hne
    | plain f =>
      have hp2 := p2_plain schema (values.foldl (ConfigSchema.deserializeStep1 schema) (SDict.empty, SDict.empty)) k f hs hmem
      have hcond : ((((values.foldl (ConfigSchema.deserializeStep1 schema)
          (SDict.empty, SDict.empty)).1 k).isNone &&
          (((values.foldl (ConfigSchema.deserializeStep1 schema)
          (SDict.empty, SDict.empty)).2 k)).isNone) = true) := by
        rw [hp1.1, hp1.2]
        rfl
      exact ⟨(hp2.1 hcond).2, (hp2.1 hcond).1⟩
  · intro k hmem
    exact (p2_deprecated schema (values.foldl (ConfigSchema.deserializeStep1 schema) (SDict.empty, SDict.empty)) k hs hmem).1

/-- C8 (witness): the deserialize contract on the concrete `demoSchema` and
`demoValues`: "stray" is unknown, "port" fails with "boom", "missing" was
not supplied, and the deprecated "user" is dropped from the result. -/
theorem config_deserialize_contract_witness :
    (ConfigSchema.deserialize demoSchema demoValues).2 "stray" = some "unknown config key." ∧
    (ConfigSchema.deserialize demoSchema demoValues).2 "port" = some "boom" ∧
    (ConfigSchema.deserialize demoSchema demoValues).2 "missing" = some "config key not found." ∧
    (ConfigSchema.deserialize demoSchema demoValues).1 "user" = none := by
  obtain ⟨ha, hb, hc, hd⟩ :=
    config_deserialize_contract demoSchema demoValues (by decide) (by decide)
  refine ⟨ha "stray" "1" (by decide) rfl, ?_, ?_, hd "user" (by simp [demoSchema])⟩
  · exact hb "port" "x" demoValueBad "boom" (by decide) rfl rfl
  · exact (hc "missing" demoValueOk (by simp [demoSchema])
      (fun h => CfgValueType.noConfusion h) (by decide)).1

end Glin
